import Mathlib

/-!
Verification of the Dynamo `metrics-keda` KEDA external scaler against its
specification.  The core engine (MetricsCache with single-flight refresh,
Collector edge detection, ThresholdEvaluator, ScalerService protocol
handlers) is described behaviourally in the specification; the repository
excerpt carries only its README, CLI defaults and deployment manifests, so
each component below is modelled from the spec's words and the claims are
settled against those models.  Timestamps and durations are natural numbers
(seconds); metric values and thresholds are rationals.
-/

/-- Modelled from the spec: `MonitorKey` identifies one logical worker group
being scaled, `(componentName, endpointName)`. -/
structure MonitorKey where
  componentName : String
  endpointName : String
deriving DecidableEq, Repr

/-- Modelled from the spec: `MetricsSnapshot` — load average, KV-block usage,
request-slot usage and the fetch timestamp; replaced wholesale on refresh. -/
structure MetricsSnapshot where
  loadAverage : ℚ
  kvBlocksUsagePercent : ℚ
  requestSlotsUsagePercent : ℚ
  observedAt : ℕ
deriving DecidableEq, Repr

/-- Modelled from the spec: `CacheEntry` owns one snapshot plus its `ttl`.
(The in-flight-refresh marker lives in the single-flight machine below.) -/
structure CacheEntry where
  snapshot : MetricsSnapshot
  ttl : ℕ
deriving DecidableEq, Repr

/-- Modelled from the spec: age of a cache entry, `now - observedAt`, the sole
staleness signal. -/
def CacheEntry.age (e : CacheEntry) (now : ℕ) : ℕ :=
  now - e.snapshot.observedAt

/-- Modelled from the spec: a cache entry is fresh when `age ≤ ttl`. -/
def CacheEntry.fresh (e : CacheEntry) (now : ℕ) : Bool :=
  e.age now ≤ e.ttl

/-- Modelled from the spec: `ThresholdConfig`, one threshold per metric,
supplied per scaler query. -/
structure ThresholdConfig where
  loadAvgThreshold : ℚ
  kvBlocksThreshold : ℚ
  requestSlotsThreshold : ℚ
deriving DecidableEq, Repr

/-- Modelled from the spec: the CLI default `--threshold 0.7`, used as the
uniform default for all three metric thresholds. -/
def defaultThreshold : ℚ := 7 / 10

/-- Modelled from the spec: the default `ThresholdConfig` applied when a query
supplies no overrides — all three thresholds fall back to `0.7`. -/
def defaultConfig : ThresholdConfig :=
  ⟨defaultThreshold, defaultThreshold, defaultThreshold⟩

/-- Modelled from the spec: exposed metric name for worker load average. -/
def loadAvgMetricName : String := "llm_load_avg"

/-- Modelled from the spec: exposed metric name for KV cache block usage. -/
def kvBlocksMetricName : String := "llm_kv_blocks_usage_percent"

/-- Modelled from the spec: the request-slot equivalent of the exposed
metric names. -/
def requestSlotsMetricName : String := "llm_request_slots_usage_percent"

/-- Modelled from the spec: `ThresholdEvaluator.evaluate` — pure function from
a snapshot and a threshold configuration to the activation boolean
(OR-semantics, each comparison inclusive) and the named raw metric values,
always all three. -/
def ThresholdEvaluator.evaluate (s : MetricsSnapshot) (c : ThresholdConfig) :
    Bool × List (String × ℚ) :=
  (decide (s.loadAverage ≥ c.loadAvgThreshold) ||
     decide (s.kvBlocksUsagePercent ≥ c.kvBlocksThreshold) ||
     decide (s.requestSlotsUsagePercent ≥ c.requestSlotsThreshold),
   [(loadAvgMetricName, s.loadAverage),
    (kvBlocksMetricName, s.kvBlocksUsagePercent),
    (requestSlotsMetricName, s.requestSlotsUsagePercent)])

/-- Modelled from the spec: the error taxonomy surfaced to the caller —
`NoDataAvailable` (no cached value and fetch failed) and `InvalidKey`
(unmonitored key with no fetch capability registered).  `SourceUnavailable`
is the fetch-side failure, modelled by `FetchResult.unavailable`. -/
inductive ScalerError
  | noDataAvailable
  | invalidKey
deriving DecidableEq, Repr

/-- Modelled from the spec: outcome of one `MetricsSource.fetch` — either a
snapshot or the `SourceUnavailable` condition. -/
inductive FetchResult
  | ok (s : MetricsSnapshot)
  | unavailable
deriving DecidableEq, Repr

/-- Modelled from the spec: value returned by `MetricsCache.get` — a snapshot
with its degraded flag, or a protocol error. -/
inductive GetValue
  | snap (s : MetricsSnapshot) (degraded : Bool)
  | err (e : ScalerError)
deriving DecidableEq, Repr

/-- Result of one `MetricsCache.get` call: the returned value, the cache entry
after the call, and how many fetches to MetricsSource the call performed. -/
structure GetResult where
  value : GetValue
  entry : Option CacheEntry
  fetchCount : ℕ
deriving DecidableEq, Repr

/-- Modelled from the spec: the outcome distributed to every waiter of a
refresh — on successful fetch the fresh snapshot (`degraded=false`); on
`SourceUnavailable` the previous snapshot with `degraded=true` when one
exists, else the `NoDataAvailable` error. -/
def refreshValue (prev : Option MetricsSnapshot) : FetchResult → GetValue
  | .ok s => .snap s false
  | .unavailable =>
      match prev with
      | some p => .snap p true
      | none => .err .noDataAvailable

/-- Modelled from the spec: `MetricsCache.get(key, forceRefresh)`.  A fresh
entry with `forceRefresh=false` is returned immediately with no fetch;
otherwise one refresh fetch is attempted: success replaces the entry's
snapshot (and with it the stored timestamp), failure leaves the entry
untouched and the previous snapshot is served degraded (or `NoDataAvailable`
when no entry exists).  `ttl` is the configured cache TTL used for a lazily
created entry. -/
def MetricsCache.get (entry : Option CacheEntry) (now : ℕ)
    (forceRefresh : Bool) (fetch : FetchResult) (ttl : ℕ) : GetResult :=
  match entry with
  | some e =>
      if forceRefresh = false ∧ e.fresh now then
        ⟨.snap e.snapshot false, some e, 0⟩
      else
        match fetch with
        | .ok s => ⟨.snap s false, some { e with snapshot := s }, 1⟩
        | .unavailable => ⟨.snap e.snapshot true, some e, 1⟩
  | none =>
      match fetch with
      | .ok s => ⟨.snap s false, some ⟨s, ttl⟩, 1⟩
      | .unavailable => ⟨.err .noDataAvailable, none, 1⟩

/-- Modelled from the spec: state of the single-flight refresh machinery for
one key — the previous snapshot (if any), the in-flight-refresh marker, the
callers currently waiting on the in-flight fetch, the outcomes delivered so
far (caller, value) and the running count of fetches issued to
MetricsSource. -/
structure SFState where
  prev : Option MetricsSnapshot
  inflight : Bool
  waiters : List ℕ
  delivered : List (ℕ × GetValue)
  fetches : ℕ
deriving DecidableEq, Repr

/-- Events of the single-flight machine: a caller arrives at the refresh path
of `get`, or the in-flight fetch completes with a result. -/
inductive SFEvent
  | arrive (c : ℕ)
  | complete (r : FetchResult)
deriving DecidableEq, Repr

/-- Modelled from the spec: one step of the single-flight refresh per key.  An
arriving caller joins the waiters of an in-flight refresh when one exists,
otherwise it starts the refresh (marking it in flight and issuing one fetch).
Completion delivers the same outcome to every waiter and clears the
in-flight marker; a successful fetch also replaces the stored snapshot. -/
def sfStep (st : SFState) : SFEvent → SFState
  | .arrive c =>
      if st.inflight then
        { st with waiters := st.waiters ++ [c] }
      else
        { st with inflight := true, waiters := [c], fetches := st.fetches + 1 }
  | .complete r =>
      { prev := match r with | .ok s => some s | .unavailable => st.prev
        inflight := false
        waiters := []
        delivered := st.delivered ++ st.waiters.map (fun c => (c, refreshValue st.prev r))
        fetches := st.fetches }

/-- Run the single-flight machine over a sequence of events. -/
def sfRun (st : SFState) : List SFEvent → SFState
  | [] => st
  | e :: es => sfRun (sfStep st e) es

/-- Modelled from the spec: per-key edge-tracker states
`{Unknown, Inactive, Active}`. -/
inductive EdgeState
  | unknown
  | inactive
  | active
deriving DecidableEq, Repr

/-- The activation boolean an edge-tracker state represents (`Unknown` and
`Inactive` both read as not active). -/
def EdgeState.activeBool : EdgeState → Bool
  | .active => true
  | _ => false

/-- Modelled from the spec: one edge-tracker transition on a successful
evaluation result.  From `Unknown` the tracker moves to `Active`/`Inactive`
without emitting an event; thereafter exactly the `Inactive↔Active`
transitions emit an `ActivationEvent` (represented by its `active` flag). -/
def edgeStep : EdgeState → Bool → EdgeState × Option Bool
  | .unknown, b => (if b then .active else .inactive, none)
  | .inactive, true => (.active, some true)
  | .inactive, false => (.inactive, none)
  | .active, false => (.inactive, some false)
  | .active, true => (.active, none)

/-- Run the edge tracker over a sequence of evaluation results, collecting the
emitted activation events in order. -/
def edgeRun (st : EdgeState) : List Bool → EdgeState × List Bool
  | [] => (st, [])
  | b :: bs =>
      let step := edgeStep st b
      let rest := edgeRun step.1 bs
      (rest.1, step.2.toList ++ rest.2)

/-- Modelled from the spec: the event sequence a `StreamIsActive` subscriber
receives — the current activation state is emitted immediately as the first
event, followed by the edge events produced by the subsequent evaluations. -/
def streamIsActive (st : EdgeState) (evals : List Bool) : List Bool :=
  st.activeBool :: (edgeRun st evals).2

/-- Modelled from the spec: `ScalerService.IsActive(key, config)` — calls
`MetricsCache.get(key, forceRefresh=false)` then evaluates thresholds; a
degraded value still yields the boolean from the last-known snapshot. -/
def ScalerService.IsActive (entry : Option CacheEntry) (now : ℕ)
    (fetch : FetchResult) (ttl : ℕ) (c : ThresholdConfig) :
    Except ScalerError Bool :=
  match (MetricsCache.get entry now false fetch ttl).value with
  | .snap s _ => .ok (ThresholdEvaluator.evaluate s c).1
  | .err e => .error e

/-- Modelled from the spec: `ScalerService.GetMetrics(key, config)` — same
cache path as `IsActive`, returning the named raw metric values. -/
def ScalerService.GetMetrics (entry : Option CacheEntry) (now : ℕ)
    (fetch : FetchResult) (ttl : ℕ) (c : ThresholdConfig) :
    Except ScalerError (List (String × ℚ)) :=
  match (MetricsCache.get entry now false fetch ttl).value with
  | .snap s _ => .ok (ThresholdEvaluator.evaluate s c).2
  | .err e => .error e

/-- Modelled from the spec: `ScalerService.GetMetricSpec(key)` — a static list
of (metricName, targetValue) pairs derived from the default thresholds; the
cache state is passed through untouched. -/
def ScalerService.GetMetricSpec (cache : Option CacheEntry) (key : MonitorKey) :
    List (String × ℚ) × Option CacheEntry :=
  ([(loadAvgMetricName, defaultConfig.loadAvgThreshold),
    (kvBlocksMetricName, defaultConfig.kvBlocksThreshold),
    (requestSlotsMetricName, defaultConfig.requestSlotsThreshold)],
   cache)

/-- Modelled from the spec: a scaler query on a key — a key with no
monitoring registration has no fetch capability and fails with `InvalidKey`;
otherwise the query goes through `MetricsCache.get`. -/
def ScalerService.query (registered : Bool) (entry : Option CacheEntry)
    (now : ℕ) (fetch : FetchResult) (ttl : ℕ) : GetValue :=
  if registered then (MetricsCache.get entry now false fetch ttl).value
  else .err .invalidKey

/-- Claim C4: `ThresholdEvaluator.evaluate` is active iff any one metric
meets or exceeds its threshold (inclusive OR semantics); with config
`{0.7,0.7,0.7}` snapshot `{0.8,0.1,0.1}` activates, and all metrics at `0.5`
against the `0.7` defaults do not. -/
theorem threshold_or_semantics :
    (∀ (s : MetricsSnapshot) (c : ThresholdConfig),
      ((ThresholdEvaluator.evaluate s c).1 = true ↔
        (c.loadAvgThreshold ≤ s.loadAverage ∨
         c.kvBlocksThreshold ≤ s.kvBlocksUsagePercent ∨
         c.requestSlotsThreshold ≤ s.requestSlotsUsagePercent))) ∧
    (ThresholdEvaluator.evaluate ⟨8/10, 1/10, 1/10, 0⟩ ⟨7/10, 7/10, 7/10⟩).1 = true ∧
    (ThresholdEvaluator.evaluate ⟨5/10, 5/10, 5/10, 0⟩ defaultConfig).1 = false := by
  refine ⟨fun s c => ?_,
    by norm_num [ThresholdEvaluator.evaluate],
    by norm_num [ThresholdEvaluator.evaluate, defaultConfig, defaultThreshold]⟩
  simp [ThresholdEvaluator.evaluate, ge_iff_le, Bool.or_eq_true, decide_eq_true_eq,
    or_assoc]

/-- Claim C8: the metrics map produced by `ThresholdEvaluator.evaluate` (and
surfaced by `GetMetrics` and `GetMetricSpec`) always carries all three raw
values under their exposed names, regardless of which metric, if any,
triggered activation. -/
theorem metrics_always_all_three :
    (∀ (s : MetricsSnapshot) (c : ThresholdConfig),
      (ThresholdEvaluator.evaluate s c).2 =
        [(loadAvgMetricName, s.loadAverage),
         (kvBlocksMetricName, s.kvBlocksUsagePercent),
         (requestSlotsMetricName, s.requestSlotsUsagePercent)] ∧
      (ThresholdEvaluator.evaluate s c).2.map Prod.fst =
        [loadAvgMetricName, kvBlocksMetricName, requestSlotsMetricName]) ∧
    (∀ (cache : Option CacheEntry) (key : MonitorKey),
      (ScalerService.GetMetricSpec cache key).1.map Prod.fst =
        [loadAvgMetricName, kvBlocksMetricName, requestSlotsMetricName]) := by
  exact ⟨fun s c => ⟨rfl, rfl⟩, fun cache key => rfl⟩

/-- Claim C10: `GetMetricSpec` is static — the pairs are derived only from the
default `0.7` thresholds, identical for every cache state and key, and the
cache is passed through unchanged. -/
theorem get_metric_spec_static :
    (∀ (cache : Option CacheEntry) (key : MonitorKey),
      (ScalerService.GetMetricSpec cache key).2 = cache ∧
      (ScalerService.GetMetricSpec cache key).1 =
        [(loadAvgMetricName, 7/10),
         (kvBlocksMetricName, 7/10),
         (requestSlotsMetricName, 7/10)]) ∧
    (∀ (cache cache2 : Option CacheEntry) (key key2 : MonitorKey),
      (ScalerService.GetMetricSpec cache key).1 =
        (ScalerService.GetMetricSpec cache2 key2).1) := by
  exact ⟨fun cache key => ⟨rfl, rfl⟩, fun _ _ _ _ => rfl⟩

/-- Claim C2: with `ttl = T` and a snapshot fetched at `t0`, a
`get(forceRefresh=false)` at any `t ∈ [t0, t0+T]` returns that snapshot with
`degraded=false`, leaves the entry unchanged and performs no fetch; at any
`t > t0+T` it performs a refresh fetch. -/
theorem ttl_correctness (e : CacheEntry) (t t0 T ttl : ℕ) (f : FetchResult)
    (h0 : e.snapshot.observedAt = t0) (hT : e.ttl = T) :
    (t0 ≤ t → t ≤ t0 + T →
      MetricsCache.get (some e) t false f ttl = ⟨.snap e.snapshot false, some e, 0⟩) ∧
    (t0 + T < t → (MetricsCache.get (some e) t false f ttl).fetchCount = 1) := by
  constructor
  · intro h1 h2
    have hc : e.fresh t = true := by
      simp only [CacheEntry.fresh, CacheEntry.age, h0, hT, decide_eq_true_eq]
      omega
    simp [MetricsCache.get, hc]
  · intro h
    have hc : e.fresh t = false := by
      simp only [CacheEntry.fresh, CacheEntry.age, h0, hT, decide_eq_false_iff_not]
      omega
    cases f <;> simp [MetricsCache.get, hc]

/-- Witness for C2 at a concrete entry: fetched at 10 with TTL 5, a query at
12 is served from cache with no fetch, a query at 16 fetches. -/
theorem ttl_correctness_witness :
    MetricsCache.get (some ⟨⟨0, 0, 0, 10⟩, 5⟩) 12 false .unavailable 5 =
      ⟨.snap ⟨0, 0, 0, 10⟩ false, some ⟨⟨0, 0, 0, 10⟩, 5⟩, 0⟩ ∧
    (MetricsCache.get (some ⟨⟨0, 0, 0, 10⟩, 5⟩) 16 false .unavailable 5).fetchCount = 1 := by
  exact ⟨(ttl_correctness ⟨⟨0, 0, 0, 10⟩, 5⟩ 12 10 5 5 .unavailable rfl rfl).1
      (by norm_num) (by norm_num),
    (ttl_correctness ⟨⟨0, 0, 0, 10⟩, 5⟩ 16 10 5 5 .unavailable rfl rfl).2 (by norm_num)⟩

/-- Claim C3: when a refresh fetch fails with `SourceUnavailable`, a key with
a previous snapshot is served that snapshot with `degraded=true` and no
error — and `IsActive`/`GetMetrics` keep returning values derived from it —
while a key with no previous snapshot gets the `NoDataAvailable` error. -/
theorem degraded_continuity (e : CacheEntry) (now ttl : ℕ) (c : ThresholdConfig)
    (hstale : e.fresh now = false) :
    (MetricsCache.get (some e) now false .unavailable ttl).value =
      .snap e.snapshot true ∧
    ScalerService.IsActive (some e) now .unavailable ttl c =
      .ok (ThresholdEvaluator.evaluate e.snapshot c).1 ∧
    ScalerService.GetMetrics (some e) now .unavailable ttl c =
      .ok (ThresholdEvaluator.evaluate e.snapshot c).2 ∧
    (MetricsCache.get none now false .unavailable ttl).value =
      .err .noDataAvailable ∧
    ScalerService.IsActive none now .unavailable ttl c = .error .noDataAvailable := by
  refine ⟨?_, ?_, ?_, rfl, rfl⟩ <;>
    simp [MetricsCache.get, ScalerService.IsActive, ScalerService.GetMetrics, hstale]

/-- Witness for C3 at a concrete stale entry (fetched at 0, TTL 5, queried at
10) and at an empty cache. -/
theorem degraded_continuity_witness :
    (MetricsCache.get (some ⟨⟨1, 0, 0, 0⟩, 5⟩) 10 false .unavailable 5).value =
      .snap ⟨1, 0, 0, 0⟩ true ∧
    ScalerService.IsActive none 10 .unavailable 5 defaultConfig =
      .error .noDataAvailable := by
  exact ⟨(degraded_continuity ⟨⟨1, 0, 0, 0⟩, 5⟩ 10 5 defaultConfig (by decide)).1,
    (degraded_continuity ⟨⟨1, 0, 0, 0⟩, 5⟩ 10 5 defaultConfig (by decide)).2.2.2.2⟩

/-- Claim C6: a refresh updates the stored snapshot and its timestamp exactly
on success — a failed fetch leaves the entry (snapshot and timestamp)
unchanged, so the measured age relative to the old timestamp keeps growing. -/
theorem refresh_timestamp_frame (e : CacheEntry) (now ttl : ℕ)
    (s : MetricsSnapshot) (hstale : e.fresh now = false) :
    ((MetricsCache.get (some e) now false (.ok s) ttl).entry =
      some { e with snapshot := s }) ∧
    (((MetricsCache.get (some e) now false (.ok s) ttl).entry.map
        (fun e2 => e2.snapshot.observedAt)) = some s.observedAt) ∧
    ((MetricsCache.get (some e) now false .unavailable ttl).entry = some e) ∧
    (∀ t2, ((MetricsCache.get (some e) now false .unavailable ttl).entry.map
        (fun e2 => e2.age t2)) = some (t2 - e.snapshot.observedAt)) ∧
    ((MetricsCache.get (some e) now true (.ok s) ttl).entry =
      some { e with snapshot := s }) ∧
    ((MetricsCache.get (some e) now true .unavailable ttl).entry = some e) := by
  refine ⟨?_, ?_, ?_, fun t2 => ?_, ?_, ?_⟩ <;>
    simp [MetricsCache.get, CacheEntry.age, hstale]

/-- Witness for C6 at a concrete stale entry: a successful refresh replaces
snapshot and timestamp, a failed one leaves the entry untouched. -/
theorem refresh_timestamp_frame_witness :
    ((MetricsCache.get (some ⟨⟨1, 0, 0, 0⟩, 5⟩) 10 false (.ok ⟨2, 0, 0, 10⟩) 5).entry =
      some ⟨⟨2, 0, 0, 10⟩, 5⟩) ∧
    ((MetricsCache.get (some ⟨⟨1, 0, 0, 0⟩, 5⟩) 10 false .unavailable 5).entry =
      some ⟨⟨1, 0, 0, 0⟩, 5⟩) := by
  exact ⟨(refresh_timestamp_frame ⟨⟨1, 0, 0, 0⟩, 5⟩ 10 5 ⟨2, 0, 0, 10⟩ (by decide)).1,
    (refresh_timestamp_frame ⟨⟨1, 0, 0, 0⟩, 5⟩ 10 5 ⟨2, 0, 0, 10⟩ (by decide)).2.2.1⟩

/-- Claim C9: querying a key with no monitoring registration and no prior
cache entry yields the explicit error `InvalidKey` (hence `InvalidKey` or
`NoDataAvailable`) and never a default or zero-valued snapshot. -/
theorem unmonitored_key_error (now ttl : ℕ) (f : FetchResult) :
    (ScalerService.query false none now f ttl = .err .invalidKey ∨
     ScalerService.query false none now f ttl = .err .noDataAvailable) ∧
    (∀ s d, ScalerService.query false none now f ttl ≠ .snap s d) := by
  exact ⟨Or.inl rfl, fun s d h => by simp [ScalerService.query] at h⟩

/-- Witness for C9: at a concrete query, the result is the `InvalidKey` error
and in particular not the zero snapshot. -/
theorem unmonitored_key_error_witness :
    (ScalerService.query false none 3 .unavailable 5 = .err .invalidKey ∨
     ScalerService.query false none 3 .unavailable 5 = .err .noDataAvailable) ∧
    ScalerService.query false none 3 .unavailable 5 ≠ .snap ⟨0, 0, 0, 0⟩ false := by
  exact ⟨(unmonitored_key_error 3 5 .unavailable).1,
    (unmonitored_key_error 3 5 .unavailable).2 ⟨0, 0, 0, 0⟩ false⟩

/-- For a tracker past its first evaluation, re-observing its own activation
state is a no-op that emits nothing. -/
theorem edgeStep_steady (st : EdgeState) (hst : st ≠ EdgeState.unknown) :
    edgeStep st st.activeBool = (st, none) := by
  cases st
  · exact absurd rfl hst
  · rfl
  · rfl

/-- A run whose evaluation results all match the tracker's current activation
state emits no events at all. -/
theorem edgeRun_steady (evals : List Bool) (st : EdgeState)
    (hst : st ≠ EdgeState.unknown) (h : ∀ b ∈ evals, b = st.activeBool) :
    (edgeRun st evals).2 = [] := by
  induction evals with
  | nil => rfl
  | cons b bs ih =>
      have hb : b = st.activeBool := h b (by simp)
      subst hb
      simp [edgeRun, edgeStep_steady st hst]
      exact ih (fun b2 hb2 => h b2 (by simp [hb2]))

/-- Claim C5: the per-key edge tracker starts at `Unknown`, moves to
`Active`/`Inactive` on the first successful evaluation without emitting an
event; thereafter exactly one event is emitted per `Inactive↔Active`
transition and none when the result is unchanged; the evaluation sequence
`[inactive, inactive, active, active, inactive]` emits exactly the two events
rising then falling. -/
theorem edge_detection (st : EdgeState) (b : Bool) (hst : st ≠ EdgeState.unknown) :
    (∀ b2, (edgeStep EdgeState.unknown b2).2 = none ∧
      (edgeStep EdgeState.unknown b2).1 =
        (if b2 then EdgeState.active else EdgeState.inactive)) ∧
    edgeStep st b =
      (if b then EdgeState.active else EdgeState.inactive,
       if st.activeBool = b then none else some b) ∧
    (edgeRun EdgeState.unknown [false, false, true, true, false]).2 =
      [true, false] := by
  refine ⟨fun b2 => by cases b2 <;> exact ⟨rfl, rfl⟩, ?_, rfl⟩
  cases st
  · exact absurd rfl hst
  · cases b <;> rfl
  · cases b <;> rfl

/-- Witness for C5: one concrete rising-edge transition from `Inactive`. -/
theorem edge_detection_witness :
    edgeStep EdgeState.inactive true =
      (if true then EdgeState.active else EdgeState.inactive,
       if EdgeState.inactive.activeBool = true then none else some true) := by
  exact (edge_detection EdgeState.inactive true (by decide)).2.1

/-- Claim C7: a new `StreamIsActive` subscription receives exactly one
initial event carrying the current activation state, before any edge event,
and receives it even when no edge ever occurs during the subscription. -/
theorem stream_initial_state (st : EdgeState) (evals : List Bool) :
    streamIsActive st evals ≠ [] ∧
    (streamIsActive st evals).head? = some st.activeBool ∧
    (streamIsActive st evals).tail = (edgeRun st evals).2 ∧
    (st ≠ EdgeState.unknown → (∀ b ∈ evals, b = st.activeBool) →
      streamIsActive st evals = [st.activeBool]) := by
  refine ⟨by simp [streamIsActive], rfl, rfl, fun hst h => ?_⟩
  simp [streamIsActive, edgeRun_steady evals st hst h]

/-- Witness for C7: an inactive subscription over a quiet run still receives
the single initial event. -/
theorem stream_initial_state_witness :
    streamIsActive EdgeState.inactive [false, false] =
      [EdgeState.inactive.activeBool] := by
  exact (stream_initial_state EdgeState.inactive [false, false]).2.2.2
    (by decide) (by decide)

/-- Running the single-flight machine over a concatenation of event lists is
sequential composition. -/
theorem sfRun_append (l1 l2 : List SFEvent) (st : SFState) :
    sfRun st (l1 ++ l2) = sfRun (sfRun st l1) l2 := by
  induction l1 generalizing st with
  | nil => rfl
  | cons e es ih => simp [sfRun, ih]

/-- While a refresh is in flight, every further arriving caller only joins the
waiter list: no extra fetch is issued and nothing else changes. -/
theorem sfRun_arrivals (cs : List ℕ) (st : SFState) (h : st.inflight = true) :
    sfRun st (cs.map SFEvent.arrive) = { st with waiters := st.waiters ++ cs } := by
  induction cs generalizing st with
  | nil => simp [sfRun]
  | cons c cs2 ih =>
      simp only [List.map_cons, sfRun, sfStep, h, if_true]
      rw [ih _ rfl]
      simp

/-- Claim C1: when N ≥ 1 callers reach the refresh path for a key while the
in-flight marker is clear, the first caller issues exactly one fetch to
MetricsSource, every caller waits on it, and completion delivers the same
outcome (snapshot or error) to all N callers. -/
theorem single_flight (prev : Option MetricsSnapshot) (cs : List ℕ)
    (r : FetchResult) (hcs : cs ≠ []) :
    (sfRun ⟨prev, false, [], [], 0⟩
      (cs.map SFEvent.arrive ++ [SFEvent.complete r])).fetches = 1 ∧
    (sfRun ⟨prev, false, [], [], 0⟩
      (cs.map SFEvent.arrive ++ [SFEvent.complete r])).delivered =
      cs.map (fun c => (c, refreshValue prev r)) := by
  obtain ⟨c, cs2, rfl⟩ := List.exists_cons_of_ne_nil hcs
  rw [sfRun_append]
  have h1 : sfRun (⟨prev, false, [], [], 0⟩ : SFState)
      ((c :: cs2).map SFEvent.arrive) = ⟨prev, true, c :: cs2, [], 1⟩ := by
    simp only [List.map_cons, sfRun, sfStep, if_false]
    rw [sfRun_arrivals cs2 _ rfl]
    simp
  rw [h1]
  simp [sfRun, sfStep]

/-- Witness for C1: three concurrent callers over a failing fetch — one fetch
issued, all three delivered the same `NoDataAvailable` outcome. -/
theorem single_flight_witness :
    (sfRun ⟨none, false, [], [], 0⟩
      (([0, 1, 2] : List ℕ).map SFEvent.arrive ++
        [SFEvent.complete .unavailable])).fetches = 1 ∧
    (sfRun ⟨none, false, [], [], 0⟩
      (([0, 1, 2] : List ℕ).map SFEvent.arrive ++
        [SFEvent.complete .unavailable])).delivered =
      ([0, 1, 2] : List ℕ).map (fun c => (c, refreshValue none .unavailable)) := by
  exact single_flight none [0, 1, 2] .unavailable (by decide)
